import Mathlib

/-!
Shallow embedding of the core services of the Nexopeak backend — the
campaign-optimization orchestrator, the market-intelligence service and the
dynamic questionnaire service — together with theorems checking the
natural-language specification against the code.

Conventions used throughout:

* Python dictionaries / JSON payloads are modelled by the inductive `JVal`;
  a Python dict preserves insertion order, so `JVal.obj` carries an ordered
  association list.  Dict keys are themselves values because the code also
  builds dicts keyed by int months.
* Python floats are modelled by `ℚ`, except where the code takes a
  fractional power, where `ℝ` and `Real.rpow` are used.
* Timestamps are an integer clock counted in hours (the code only ever
  adds or subtracts `timedelta(hours=24)`).
* A SQLAlchemy `query(...).filter(...).first()` without `order_by` is
  modelled by `List.find?` over the table in insertion order.
* An uncaught Python exception is modelled by `Except.error` carrying the
  exception name.  Several methods called by the source are defined nowhere
  in the repository (`_get_fallback_retail_data`, `_calculate_seasonal_index`,
  `_calculate_volatility`, `_get_default_seasonal_analysis`,
  `_fetch_canada_open_data_insights`, `_recommend_channel_mix`, the timing
  helpers, …); calling them raises `AttributeError`, which the embedding
  records as `Except.error` at the exact source positions, or resolves to
  the enclosing `except` handler where the source catches it.
* Leading underscores of Python method names are dropped.
-/

namespace Nexopeak

/-- A Python/JSON value.  `obj` keeps the dict's insertion order; keys are
values because the code also builds dicts with int keys (seasonal
multipliers keyed by month). -/
inductive JVal where
  | null
  | bool (b : Bool)
  | num (q : ℚ)
  | str (s : String)
  | arr (items : List JVal)
  | obj (fields : List (JVal × JVal))

/-- Python `d.get(k)` for a string key `k`: `none` both when the key is
absent and when the value is not a dict. -/
def JVal.get : JVal → String → Option JVal
  | .obj fields, k =>
      (fields.find? (fun p => match p.1 with | .str s => s == k | _ => false)).map (fun p => p.2)
  | _, _ => none

/-- Python `str.lower()`, structurally on the character list (all strings
involved are ASCII; core `String.toLower` is opaque to kernel
reduction). -/
def pyLower (s : String) : String := String.mk (s.data.map Char.toLower)

/-- Lexicographic comparison of character lists by code point — Python's
`str <` on the involved ASCII strings (core `String.ltb` is opaque to
kernel reduction). -/
def charListLt : List Char → List Char → Bool
  | [], [] => false
  | [], _ :: _ => true
  | _ :: _, [] => false
  | a :: as, b :: bs =>
      if a.val < b.val then true
      else if b.val < a.val then false
      else charListLt as bs

/-- Python `str <`. -/
def pyStrLt (a b : String) : Bool := charListLt a.data b.data

/-- Python truthiness `bool(v)`. -/
def JVal.truthy : JVal → Bool
  | .null => false
  | .bool b => b
  | .num q => q != 0
  | .str s => s != ""
  | .arr items => !items.isEmpty
  | .obj fields => !fields.isEmpty

/-- Python `bool(d.get(k))`: falsy both for an absent key and for a present
falsy value. -/
def JVal.getTruthy (v : JVal) (k : String) : Bool :=
  match v.get k with
  | none => false
  | some w => w.truthy

/-! ## Data model

The fields of the SQLAlchemy models that the three services read
(`backend/app/models/campaign.py`, `backend/app/models/campaign_optimization.py`). -/

/-- The fields of `Campaign` used by the services.  `target_age_range` is
`target_demographics.get("age_range")`. -/
structure Campaign where
  id : String
  user_id : String
  org_id : String
  campaign_type : String
  primary_objective : String
  total_budget : Option ℚ
  daily_budget : Option ℚ
  target_age_range : Option (ℚ × ℚ)
  target_locations : List String
  target_interests : List String
  deriving DecidableEq

/-- The fields of `Organization` used by the services. -/
structure Organization where
  id : String
  industry : Option String
  deriving DecidableEq

/-- The fields of a `CampaignOptimization` row touched by
`start_optimization`.  The `uuid4` primary key is modelled by a creation
counter. -/
structure OptimizationRec where
  id : Nat
  campaign_id : String
  org_id : String
  user_id : String
  optimization_type : String
  status : String
  deriving DecidableEq

/-- The relational store seen by `start_optimization`: both tables in
insertion order, plus the counter standing in for `uuid4`. -/
structure OptDB where
  campaigns : List Campaign
  optimizations : List OptimizationRec
  next_id : Nat
  deriving DecidableEq

/-! ## Orchestrator: `start_optimization`

`backend/app/services/campaign_optimization_service.py`, lines 49-91. -/

/-- `CampaignOptimizationService.start_optimization` (lines 49-91).

* Lines 58-63: first campaign row with matching id AND matching `user_id`,
  else `ValueError("Campaign not found or access denied")` (re-raised by the
  catch-all at lines 89-91).
* Lines 66-71: `first()` over ALL optimization rows of the campaign — the
  query does not restrict to `status == "pending"`; the existing row is
  returned only when that first row happens to be pending.
* Lines 74-87: otherwise a new row in status `"pending"` is appended. -/
def start_optimization (db : OptDB) (campaign_id user_id optimization_type : String) :
    Except String (OptimizationRec × OptDB) :=
  match db.campaigns.find? (fun c => c.id == campaign_id && c.user_id == user_id) with
  | none => .error "Campaign not found or access denied"
  | some campaign =>
      let fresh : OptimizationRec :=
        { id := db.next_id, campaign_id := campaign_id, org_id := campaign.org_id,
          user_id := user_id, optimization_type := optimization_type, status := "pending" }
      let db_created : OptDB :=
        { db with optimizations := db.optimizations ++ [fresh], next_id := db.next_id + 1 }
      match db.optimizations.find? (fun o => o.campaign_id == campaign_id) with
      | some first_row =>
          if first_row.status == "pending" then .ok (first_row, db)
          else .ok (fresh, db_created)
      | none => .ok (fresh, db_created)

/-- A campaign whose store already holds a terminal (`completed`)
optimization row, for the C2 counterexample. -/
def c2Campaign : Campaign :=
  { id := "c1", user_id := "u1", org_id := "o1", campaign_type := "search",
    primary_objective := "leads", total_budget := none, daily_budget := none,
    target_age_range := none, target_locations := [], target_interests := [] }

/-- Store state for the C2 counterexample: the first (and so far only)
optimization row of campaign `c1` is `completed`. -/
def c2DB : OptDB :=
  { campaigns := [c2Campaign],
    optimizations := [{ id := 100, campaign_id := "c1", org_id := "o1", user_id := "u1",
                        optimization_type := "full", status := "completed" }],
    next_id := 101 }

/-- First `start_optimization` call of the C2 counterexample. -/
def c2FirstCall : Except String (OptimizationRec × OptDB) :=
  start_optimization c2DB "c1" "u1" "full"

/-- Second `start_optimization` call of the C2 counterexample, on the store
produced by the first call. -/
def c2SecondCall : Except String (OptimizationRec × OptDB) :=
  c2FirstCall.bind (fun p => start_optimization p.2 "c1" "u1" "full")

/-- C2 counterexample.  With a terminal `completed` row stored first for the
campaign, `start_optimization` called twice creates two fresh rows with
different identifiers (101 then 102) even though a `pending` row (101)
already exists before the second call — the `first()` query at lines 66-68
does not filter on status, so the claimed idempotence "regardless of what
other optimization records (including completed or failed ones) exist"
fails. -/
theorem C2_counterexample :
    c2FirstCall.map (fun p => (p.1.id, p.1.status)) = .ok (101, "pending") ∧
    c2SecondCall.map (fun p => (p.1.id, p.1.status)) = .ok (102, "pending") ∧
    c2SecondCall.map (fun p => p.2.optimizations.length) = .ok 3 :=
  ⟨rfl, rfl, rfl⟩

/-- C2 (amended): `start_optimization` is idempotent provided the FIRST
optimization row stored for the campaign, if any, is `pending` — in
particular whenever the campaign has no prior optimization rows.  Under
that proviso the second call returns the very same record and leaves the
store unchanged.  (The unamended claim fails when an earlier terminal row
precedes a pending one; see the counterexample.) -/
theorem C2_start_optimization_idempotent (db : OptDB) (cid uid t : String)
    (hc : (db.campaigns.find? (fun c => c.id == cid && c.user_id == uid)).isSome)
    (hp : (db.optimizations.find? (fun o => o.campaign_id == cid)).all
            (fun r0 => r0.status == "pending") = true)
    (r1 : OptimizationRec) (db1 : OptDB)
    (h1 : start_optimization db cid uid t = .ok (r1, db1)) :
    start_optimization db1 cid uid t = .ok (r1, db1) := by
  obtain ⟨c, hcf⟩ := Option.isSome_iff_exists.mp hc
  rcases hfo : db.optimizations.find? (fun o => o.campaign_id == cid) with _ | r0
  · -- no optimization row yet: the first call appends a fresh pending row
    simp only [start_optimization, hcf, hfo, Except.ok.injEq, Prod.mk.injEq] at h1
    obtain ⟨hr1, hdb1⟩ := h1
    subst hdb1
    simp only [start_optimization, hcf, List.find?_append, hfo, Option.none_or,
      Option.none_orElse, List.find?_cons, beq_self_eq_true, cond_true, if_true, ← hr1]
  · -- a row exists and by hypothesis it is pending: both calls return it
    rw [hfo, Option.all_some] at hp
    simp only [start_optimization, hcf, hfo, hp, if_true, Except.ok.injEq,
      Prod.mk.injEq] at h1
    obtain ⟨hr1, hdb1⟩ := h1
    subst hdb1
    subst hr1
    simp [start_optimization, hcf, hfo, hp]

/-- Pending-first store for the C2 witness. -/
def c2wDB : OptDB :=
  { campaigns := [c2Campaign],
    optimizations := [{ id := 7, campaign_id := "c1", org_id := "o1", user_id := "u1",
                        optimization_type := "full", status := "pending" }],
    next_id := 8 }

/-- C2 witness: the amended idempotence theorem applied to a concrete store
whose only optimization row is pending. -/
theorem C2_witness :
    start_optimization c2wDB "c1" "u1" "full" =
      .ok ({ id := 7, campaign_id := "c1", org_id := "o1", user_id := "u1",
             optimization_type := "full", status := "pending" }, c2wDB) :=
  C2_start_optimization_idempotent c2wDB "c1" "u1" "full" (by decide) (by decide)
    _ _ rfl

/-! ## Market intelligence: `_calculate_growth_rate`

`backend/app/services/market_intelligence_service.py`, lines 370-382. -/

/-- One processed Gateway observation (`_process_statcan_response` output):
the `refPer` reference period is modelled already split into year and
calendar month, with its float value. -/
structure Obs where
  year : Int
  month : Nat
  value : ℚ
  deriving DecidableEq

/-- The placeholder observation used to realise the (guarded, unreachable)
`data[0]` / `data[-1]` accesses totally. -/
def obs0 : Obs := { year := 0, month := 0, value := 0 }

/-- `_calculate_growth_rate` (lines 370-382): compound growth rate as a
percentage.  `pow(x, 1/periods)` with positive base is the real power
`Real.rpow`. -/
noncomputable def calculate_growth_rate (data : List Obs) : ℝ :=
  if data.length < 2 then 0
  else
    let first_value : ℚ := (data.head?.getD obs0).value
    let last_value : ℚ := (data.getLast?.getD obs0).value
    let periods : ℕ := data.length - 1
    if first_value ≤ 0 ∨ periods ≤ 0 then 0
    else (Real.rpow ((last_value : ℝ) / (first_value : ℝ)) (1 / (periods : ℝ)) - 1) * 100

/-- C9: the growth rate is `((last/first)^(1/periods) − 1)×100` with
`periods = length − 1` compounding steps, and `0` on a degenerate series —
first value `≤ 0` or fewer than 2 observations ("fewer than 2 periods
covered" in the claim's words; the inner `periods <= 0` guard of the source
is subsumed, being unreachable once the length guard has passed). -/
theorem C9_growth_rate (data : List Obs) :
    ((data.length < 2 ∨ (data.head?.getD obs0).value ≤ 0) → calculate_growth_rate data = 0) ∧
    (2 ≤ data.length → 0 < (data.head?.getD obs0).value →
      calculate_growth_rate data =
        (Real.rpow (((data.getLast?.getD obs0).value : ℝ) / ((data.head?.getD obs0).value : ℝ))
            (1 / ((data.length - 1 : ℕ) : ℝ)) - 1) * 100) := by
  constructor
  · intro h
    rcases h with h | h
    · simp [calculate_growth_rate, h]
    · unfold calculate_growth_rate
      rcases Nat.lt_or_ge data.length 2 with h2 | h2
      · simp [h2]
      · rw [if_neg (by omega)]
        simp only
        rw [if_pos (Or.inl h)]
  · intro h2 hpos
    unfold calculate_growth_rate
    rw [if_neg (by omega)]
    simp only
    rw [if_neg]
    push_neg
    exact ⟨hpos, by omega⟩

/-- Concrete series for the C9 witness: values 1 then 4 over one
compounding step. -/
def c9Data : List Obs := [{ year := 2020, month := 1, value := 1 },
                          { year := 2020, month := 2, value := 4 }]

/-- C9 witness: on the two-point series 1 → 4 the growth rate evaluates to
`((4/1)^(1/1) − 1)×100 = 300`. -/
theorem C9_witness : calculate_growth_rate c9Data = 300 := by
  have h := (C9_growth_rate c9Data).2 (by decide) (by decide)
  rw [h]
  norm_num [c9Data]

/-! ## Orchestrator: `_calculate_confidence_scores`

`backend/app/services/campaign_optimization_service.py`, lines 611-655. -/

/-- Python `round(x, 2)` on the rational model: the nearest hundredth
(Lean's `round` takes ties up where Python takes them to even; no claim
depends on the tie direction). -/
def round2 (q : ℚ) : ℚ := (round (q * 100) : ℤ) / 100

/-- Lines 620-626: 0.9 when the market payload carries
`data_quality == "high"`, 0.5 when `"fallback"`, else the 0.7 default. -/
def data_quality_score (market_data : JVal) : ℚ :=
  match market_data.get "data_quality" with
  | some (.str "high") => 0.9
  | some (.str "fallback") => 0.5
  | _ => 0.7

/-- Line 629: `historical_analysis.get("total_campaigns", 0)`.  The
pipeline only ever stores `len(historical_campaigns)` here; a present
non-numeric value (which Python would propagate into a `TypeError` later)
is read as the absent-key default. -/
def total_campaigns_of (historical_analysis : JVal) : ℚ :=
  match historical_analysis.get "total_campaigns" with
  | some (.num q) => q
  | _ => 0

/-- Line 632: `timing_analysis.get("confidence_level", 0.6)` (same reading
of non-numeric values as `total_campaigns_of`). -/
def timing_confidence_of (timing_analysis : JVal) : ℚ :=
  match timing_analysis.get "confidence_level" with
  | some (.num q) => q
  | _ => 0.6

/-- The dict returned by `_calculate_confidence_scores` (lines 649-655). -/
structure ConfidenceScores where
  overall : ℚ
  timing : ℚ
  platform : ℚ
  budget : ℚ
  data_quality : ℚ
  deriving DecidableEq

/-- `_calculate_confidence_scores` (lines 611-655). -/
def calculate_confidence_scores
    (market_data historical_analysis timing_analysis platform_analysis : JVal) :
    ConfidenceScores :=
  let data_quality := data_quality_score market_data
  let historical_confidence : ℚ :=
    min 0.9 (total_campaigns_of historical_analysis * 0.1 + 0.3)
  let timing_confidence := timing_confidence_of timing_analysis
  let platform_confidence : ℚ :=
    if platform_analysis.getTruthy "platform_scores" then 0.8 else 0.6
  let budget_confidence : ℚ := 0.7
  let overall_confidence : ℚ :=
    data_quality * 0.3 + historical_confidence * 0.2 + timing_confidence * 0.2 +
      platform_confidence * 0.2 + budget_confidence * 0.1
  { overall := round2 overall_confidence,
    timing := round2 timing_confidence,
    platform := round2 platform_confidence,
    budget := round2 budget_confidence,
    data_quality := round2 data_quality }

/-- `round(x, 2)` keeps nonnegativity. -/
theorem round2_nonneg {q : ℚ} (h : 0 ≤ q) : 0 ≤ round2 q := by
  unfold round2
  have h0 : (0 : ℤ) ≤ round (q * 100) := by
    rw [round_eq, Int.le_floor]
    push_cast
    linarith
  have : (0 : ℚ) ≤ ((round (q * 100) : ℤ) : ℚ) := by exact_mod_cast h0
  linarith

/-- `round(x, 2)` keeps the upper bound 1. -/
theorem round2_le_one {q : ℚ} (h : q ≤ 1) : round2 q ≤ 1 := by
  unfold round2
  have h0 : round (q * 100) ≤ 100 := by
    rw [round_eq, Int.floor_le_iff]
    push_cast
    linarith
  have : ((round (q * 100) : ℤ) : ℚ) ≤ 100 := by exact_mod_cast h0
  linarith

/-- C1 (amended): the overall confidence is the rounded convex combination
`0.3·data_quality + 0.2·historical + 0.2·timing + 0.2·platform +
0.1·budget` with `historical = min(0.9, 0.1·count + 0.3)` and
`budget = 0.7`; the `data_quality` component is 0.9 exactly when the market
payload carries `data_quality == "high"` (never produced by the market
intelligence service — a live fetch carries no such marker and scores 0.7,
the claim's "0.9 when live" fails, see the counterexample), 0.5 on
`"fallback"`, else 0.7; and, whenever the stored timing confidence lies in
[0,1] and the stored campaign count is nonnegative, every returned score
lies in [0,1] after rounding to two decimals. -/
theorem C1_confidence_aggregation
    (market_data historical_analysis timing_analysis platform_analysis : JVal)
    (ht : 0 ≤ timing_confidence_of timing_analysis ∧ timing_confidence_of timing_analysis ≤ 1)
    (hn : 0 ≤ total_campaigns_of historical_analysis) :
    ((calculate_confidence_scores market_data historical_analysis timing_analysis
        platform_analysis).overall =
      round2 (0.3 * data_quality_score market_data
        + 0.2 * min 0.9 (0.1 * total_campaigns_of historical_analysis + 0.3)
        + 0.2 * timing_confidence_of timing_analysis
        + 0.2 * (if platform_analysis.getTruthy "platform_scores" then (0.8 : ℚ) else 0.6)
        + 0.1 * 0.7)) ∧
    ((0 ≤ (calculate_confidence_scores market_data historical_analysis timing_analysis
        platform_analysis).overall ∧
      (calculate_confidence_scores market_data historical_analysis timing_analysis
        platform_analysis).overall ≤ 1) ∧
     (0 ≤ (calculate_confidence_scores market_data historical_analysis timing_analysis
        platform_analysis).timing ∧
      (calculate_confidence_scores market_data historical_analysis timing_analysis
        platform_analysis).timing ≤ 1) ∧
     (0 ≤ (calculate_confidence_scores market_data historical_analysis timing_analysis
        platform_analysis).platform ∧
      (calculate_confidence_scores market_data historical_analysis timing_analysis
        platform_analysis).platform ≤ 1) ∧
     (0 ≤ (calculate_confidence_scores market_data historical_analysis timing_analysis
        platform_analysis).budget ∧
      (calculate_confidence_scores market_data historical_analysis timing_analysis
        platform_analysis).budget ≤ 1) ∧
     (0 ≤ (calculate_confidence_scores market_data historical_analysis timing_analysis
        platform_analysis).data_quality ∧
      (calculate_confidence_scores market_data historical_analysis timing_analysis
        platform_analysis).data_quality ≤ 1)) ∧
    ((market_data.get "data_quality" = some (.str "high") →
        data_quality_score market_data = 0.9) ∧
     (market_data.get "data_quality" = some (.str "fallback") →
        data_quality_score market_data = 0.5) ∧
     (market_data.get "data_quality" ≠ some (.str "high") →
      market_data.get "data_quality" ≠ some (.str "fallback") →
        data_quality_score market_data = 0.7)) := by
  obtain ⟨ht0, ht1⟩ := ht
  have hdq_lo : 0.5 ≤ data_quality_score market_data := by
    unfold data_quality_score
    split <;> norm_num
  have hdq_hi : data_quality_score market_data ≤ 0.9 := by
    unfold data_quality_score
    split <;> norm_num
  have hh_lo : (0.3 : ℚ) ≤ min 0.9 (total_campaigns_of historical_analysis * 0.1 + 0.3) :=
    le_min (by norm_num) (by linarith)
  have hh_hi : min (0.9 : ℚ) (total_campaigns_of historical_analysis * 0.1 + 0.3) ≤ 0.9 :=
    min_le_left _ _
  have hp_lo : (0.6 : ℚ) ≤
      (if platform_analysis.getTruthy "platform_scores" then (0.8 : ℚ) else 0.6) := by
    split <;> norm_num
  have hp_hi : (if platform_analysis.getTruthy "platform_scores" then (0.8 : ℚ) else 0.6) ≤ 0.8 := by
    split <;> norm_num
  refine ⟨?_, ⟨⟨?_, ?_⟩, ⟨?_, ?_⟩, ⟨?_, ?_⟩, ?_, ?_⟩, ?_, ?_, ?_⟩
  · show round2 _ = round2 _
    rw [show (0.1 * total_campaigns_of historical_analysis + 0.3 : ℚ) =
      total_campaigns_of historical_analysis * 0.1 + 0.3 from by ring]
    congr 1
    ring
  · exact round2_nonneg (by nlinarith)
  · exact round2_le_one (by nlinarith)
  · exact round2_nonneg ht0
  · exact round2_le_one ht1
  · exact round2_nonneg (by linarith)
  · exact round2_le_one (by linarith)
  · exact ⟨round2_nonneg (by norm_num), round2_le_one (by norm_num)⟩
  · exact ⟨round2_nonneg (by linarith), round2_le_one (by linarith)⟩
  · intro hm
    unfold data_quality_score
    rw [hm]
    rfl
  · intro hm
    unfold data_quality_score
    rw [hm]
    rfl
  · intro h1 h2
    unfold data_quality_score
    split
    · exact absurd (by assumption) h1
    · exact absurd (by assumption) h2
    · rfl

/-- Concrete live-quality market payload for the C1 witness. -/
def c1Market : JVal := .obj [(.str "data_quality", .str "high")]

/-- Concrete historical analysis (4 prior campaigns) for the C1 witness. -/
def c1Hist : JVal := .obj [(.str "total_campaigns", .num 4)]

/-- Concrete timing analysis (confidence 0.75) for the C1 witness. -/
def c1Timing : JVal := .obj [(.str "confidence_level", .num 0.75)]

/-- Concrete platform analysis with a non-empty score dict, for the C1
witness. -/
def c1Platform : JVal := .obj [(.str "platform_scores", .obj [(.str "google_ads", .num 1)])]

/-- C1 witness: the aggregation theorem at a concrete input —
`round2(0.3·0.9 + 0.2·0.7 + 0.2·0.75 + 0.2·0.8 + 0.07) = 0.79`, inside
[0,1]. -/
theorem C1_witness :
    (calculate_confidence_scores c1Market c1Hist c1Timing c1Platform).overall = 0.79 ∧
    0 ≤ (calculate_confidence_scores c1Market c1Hist c1Timing c1Platform).overall ∧
    (calculate_confidence_scores c1Market c1Hist c1Timing c1Platform).overall ≤ 1 := by
  have e1 : timing_confidence_of c1Timing = 0.75 := rfl
  have e2 : total_campaigns_of c1Hist = 4 := rfl
  have h := C1_confidence_aggregation c1Market c1Hist c1Timing c1Platform
    ⟨by rw [e1]; norm_num, by rw [e1]; norm_num⟩ (by rw [e2]; norm_num)
  refine ⟨?_, h.2.1.1.1, h.2.1.1.2⟩
  have e3 : data_quality_score c1Market = 0.9 := rfl
  have e4 : c1Platform.getTruthy "platform_scores" = true := rfl
  rw [h.1, e1, e2, e3]
  norm_num [round2, round_eq, e4]

/-! ## Orchestrator: `_perform_comprehensive_analysis`

`backend/app/services/campaign_optimization_service.py`, lines 126-198. -/

/-- The fields of a `CampaignOptimization` row that
`_perform_comprehensive_analysis` writes (lines 165-179), plus the fields
it leaves alone; `status` is `"analyzing"` when the method is entered from
`process_questionnaire`. -/
structure OptFields where
  status : String
  questionnaire_responses : JVal
  market_analysis : JVal
  historical_analysis : JVal
  timing_recommendations : JVal
  platform_recommendations : JVal
  budget_recommendations : JVal
  creative_recommendations : JVal
  audience_recommendations : JVal
  overall_confidence : Option ℚ
  timing_confidence : Option ℚ
  platform_confidence : Option ℚ
  budget_confidence : Option ℚ
  completed_at : Option ℤ
  processing_time_seconds : Option ℚ
  data_sources_used : List String

/-- The outcomes of the successive fallible calls inside the try block of
`_perform_comprehensive_analysis` (lines 136-162): the market-intelligence
fetch, the five scoring analyses and the confidence aggregation — each
either a produced payload or a raised, unhandled exception.  (As written,
each of the five analyses catches its own exceptions and falls back to a
static default, so in the current source the realistic unhandled raises sit
in the ORM attribute accesses and the aggregation; the claim is the
conditional over any of them raising.) -/
structure AnalysisSteps where
  market_data : Except String JVal
  historical_analysis : Except String JVal
  timing_analysis : Except String JVal
  platform_analysis : Except String JVal
  budget_analysis : Except String JVal
  creative_analysis : Except String JVal
  audience_analysis : Except String JVal
  confidence_scores : Except String ConfidenceScores

/-- The try-block body of `_perform_comprehensive_analysis`: the step calls
in source order, stopping at the first raised exception. -/
def analysis_pipeline (steps : AnalysisSteps) :
    Except String (JVal × JVal × JVal × JVal × JVal × JVal × JVal × ConfidenceScores) := do
  let market ← steps.market_data
  let historical ← steps.historical_analysis
  let timing ← steps.timing_analysis
  let platform ← steps.platform_analysis
  let budget ← steps.budget_analysis
  let creative ← steps.creative_analysis
  let audience ← steps.audience_analysis
  let confidence ← steps.confidence_scores
  pure (market, historical, timing, platform, budget, creative, audience, confidence)

/-- `CampaignOptimization.get_recommendation_summary`
(`backend/app/models/campaign_optimization.py`, lines 77-91). -/
def get_recommendation_summary (o : OptFields) : JVal :=
  .obj [(.str "timing", o.timing_recommendations),
        (.str "platforms", o.platform_recommendations),
        (.str "budget", o.budget_recommendations),
        (.str "creative", o.creative_recommendations),
        (.str "audience", o.audience_recommendations),
        (.str "confidence_scores", .obj [
            (.str "overall", o.overall_confidence.elim .null .num),
            (.str "timing", o.timing_confidence.elim .null .num),
            (.str "platform", o.platform_confidence.elim .null .num),
            (.str "budget", o.budget_confidence.elim .null .num)])]

/-- The dict returned by `_perform_comprehensive_analysis` on success
(lines 183-189). -/
structure AnalysisResult where
  status : String
  recommendations : JVal
  confidence_scores : ConfidenceScores
  processing_time : ℚ

/-- `_perform_comprehensive_analysis` (lines 126-198) as a function of the
step outcomes, the pre-analysis row and the start/end clock readings: the
raised-or-returned value together with the committed row.  On the success
path (lines 165-189) every recommendation field, the four confidences,
status `completed` and the timing metadata are assigned and committed; in
the except handler (lines 194-198) only `status := "failed"` is assigned
before the commit, because the field assignments all sit after the last
fallible step of the try block. -/
def perform_comprehensive_analysis (steps : AnalysisSteps) (o : OptFields) (t0 t1 : ℤ) :
    Except String AnalysisResult × OptFields :=
  match analysis_pipeline steps with
  | .error e => (.error e, { o with status := "failed" })
  | .ok (market, historical, timing, platform, budget, creative, audience, confidence) =>
      let o1 : OptFields :=
        { o with
          market_analysis := market, historical_analysis := historical,
          timing_recommendations := timing, platform_recommendations := platform,
          budget_recommendations := budget, creative_recommendations := creative,
          audience_recommendations := audience,
          overall_confidence := some confidence.overall,
          timing_confidence := some confidence.timing,
          platform_confidence := some confidence.platform,
          budget_confidence := some confidence.budget,
          status := "completed", completed_at := some t1,
          processing_time_seconds := some ((t1 - t0 : ℤ) : ℚ),
          data_sources_used := ["market_intelligence", "historical_data", "benchmarks"] }
      (.ok { status := "completed", recommendations := get_recommendation_summary o1,
             confidence_scores := confidence, processing_time := ((t1 - t0 : ℤ) : ℚ) }, o1)

/-- C5: when any step of the analysis pipeline raises, the original
exception is re-raised to the caller and the committed row is exactly the
pre-analysis row with `status := "failed"` — every recommendation bundle
and confidence score keeps its pre-analysis value, so no partial
recommendation state is persisted. -/
theorem C5_analysis_failure (steps : AnalysisSteps) (o : OptFields) (t0 t1 : ℤ) (e : String)
    (hfail : analysis_pipeline steps = .error e) :
    perform_comprehensive_analysis steps o t0 t1 = (.error e, { o with status := "failed" }) := by
  unfold perform_comprehensive_analysis
  rw [hfail]

/-- Step outcomes for the C5 witness: the timing analysis raises. -/
def c5Steps : AnalysisSteps :=
  { market_data := .ok .null, historical_analysis := .ok .null,
    timing_analysis := .error "TypeError", platform_analysis := .ok .null,
    budget_analysis := .ok .null, creative_analysis := .ok .null,
    audience_analysis := .ok .null, confidence_scores := .error "unreached" }

/-- Pre-analysis row for the C5 witness. -/
def c5Row : OptFields :=
  { status := "analyzing", questionnaire_responses := .null, market_analysis := .null,
    historical_analysis := .null, timing_recommendations := .null,
    platform_recommendations := .null, budget_recommendations := .null,
    creative_recommendations := .null, audience_recommendations := .null,
    overall_confidence := none, timing_confidence := none, platform_confidence := none,
    budget_confidence := none, completed_at := none, processing_time_seconds := none,
    data_sources_used := [] }

/-- C5 witness: the failure theorem at a concrete raising step. -/
theorem C5_witness :
    perform_comprehensive_analysis c5Steps c5Row 0 2 =
      (.error "TypeError", { c5Row with status := "failed" }) :=
  C5_analysis_failure c5Steps c5Row 0 2 "TypeError" rfl

/-! ## Stable descending sort

Python's `sorted(..., key=k, reverse=True)` is a stable sort descending on
the key: among equal keys the original order is kept.  It is modelled by
`List.insertionSort` under the relation `descBy k` ("may come before":
key at least as large"), which Mathlib proves sorted, a permutation, and
stable. -/

/-- `descBy key a b`: in the descending order by `key`, `a` may be placed
before `b`. -/
def descBy {α : Type} (key : α → ℚ) (a b : α) : Prop := key b ≤ key a

instance descBy.decidableRel {α : Type} (key : α → ℚ) : DecidableRel (descBy key) :=
  fun a b => inferInstanceAs (Decidable (key b ≤ key a))

instance descBy.isTotal {α : Type} (key : α → ℚ) : IsTotal α (descBy key) :=
  ⟨fun a b => le_total (key b) (key a)⟩

instance descBy.isTrans {α : Type} (key : α → ℚ) : IsTrans α (descBy key) :=
  ⟨fun _ _ _ h1 h2 => le_trans h2 h1⟩

/-! ## Market intelligence: `_perform_seasonal_decomposition`

`backend/app/services/market_intelligence_service.py`, lines 260-301. -/

/-- The structured result of `_perform_seasonal_decomposition`
(lines 290-297). -/
structure SeasonalDecomposition where
  peak_months : List Nat
  low_months : List Nat
  seasonal_strength : ℚ
  recommended_months : List Nat
  avoid_months : List Nat
  multipliers : List (Nat × ℚ)
  deriving DecidableEq

/-- Lines 264-269, one step: append a value to its month's bucket, keeping
the dict's first-occurrence key order. -/
def add_to_month_group : List (Nat × List ℚ) → Nat → ℚ → List (Nat × List ℚ)
  | [], m, v => [(m, [v])]
  | (m0, vs) :: rest, m, v =>
      if m0 = m then (m0, vs ++ [v]) :: rest
      else (m0, vs) :: add_to_month_group rest m v

/-- Lines 264-269: the `monthly_averages` dict — observations grouped by
calendar month.  A month with no observations has no entry. -/
def month_groups (data : List Obs) : List (Nat × List ℚ) :=
  data.foldl (fun acc p => add_to_month_group acc p.month p.value) []

/-- Lines 272-277: each populated month's average (`month_stats`); every
bucket is non-empty so the division is safe even for one observation. -/
def month_stats (data : List Obs) : List (Nat × ℚ) :=
  (month_groups data).map (fun g => (g.1, g.2.sum / (g.2.length : ℚ)))

/-- Line 280: the grand mean of the monthly averages. -/
def grand_mean (data : List Obs) : ℚ :=
  ((month_stats data).map (fun s => s.2)).sum / ((month_stats data).length : ℚ)

/-- Lines 283-285: the seasonal index of each populated month, in
first-occurrence order. -/
def seasonal_indices (data : List Obs) : List (Nat × ℚ) :=
  (month_stats data).map (fun s => (s.1, s.2 / grand_mean data))

/-- Line 288: `sorted(seasonal_indices.items(), key=..., reverse=True)` —
stable, descending on the index. -/
def sorted_idx (data : List Obs) : List (Nat × ℚ) :=
  List.insertionSort (descBy (fun p : Nat × ℚ => p.2)) (seasonal_indices data)

/-- Python `max` over a non-empty list (line 293). -/
def pymax (l : List ℚ) : ℚ := l.foldl max (l.head?.getD 0)

/-- Python `min` over a non-empty list (line 293). -/
def pymin (l : List ℚ) : ℚ := l.foldl min (l.head?.getD 0)

/-- The exception escaping `_perform_seasonal_decomposition` on its error
paths: the handler at lines 299-301 calls `_get_default_seasonal_analysis`,
which is defined nowhere in the repository, so the `except` block itself
raises `AttributeError`. -/
def attrErrSeasonal : String := "AttributeError: _get_default_seasonal_analysis"

/-- `_perform_seasonal_decomposition` (lines 260-301).

* An input with no populated month reaches `sum(...) / len(month_stats)`
  (line 280) with `len = 0`: `ZeroDivisionError`, and the handler escalates
  to `AttributeError` (see `attrErrSeasonal`) — it does NOT return a static
  default.
* A grand mean of exactly zero likewise raises at line 285.
* Otherwise the decomposition is computed — also for a single populated
  month (`[-3:]`-style slices are modelled by saturating `take`/`drop`). -/
def perform_seasonal_decomposition (data : List Obs) : Except String SeasonalDecomposition :=
  if (month_stats data).isEmpty then .error attrErrSeasonal
  else if grand_mean data = 0 then .error attrErrSeasonal
  else
    .ok { peak_months := ((sorted_idx data).take 3).map (fun p => p.1),
          low_months := ((sorted_idx data).drop ((sorted_idx data).length - 3)).map (fun p => p.1),
          seasonal_strength :=
            pymax ((seasonal_indices data).map (fun p => p.2)) -
              pymin ((seasonal_indices data).map (fun p => p.2)),
          recommended_months := ((sorted_idx data).take 6).map (fun p => p.1),
          avoid_months := ((sorted_idx data).drop ((sorted_idx data).length - 2)).map (fun p => p.1),
          multipliers := seasonal_indices data }

/-- A series with exactly one populated month, for the C3 counterexample. -/
def c3OneMonth : List Obs := [{ year := 2023, month := 5, value := 10 }]

/-- C3 counterexample.  The claim says an input with fewer than 2 populated
months "returns the static default decomposition instead … never raising".
In the code: a single populated month is decomposed normally (index 1.0,
strength 0 — no default is returned), and the empty input raises an
`AttributeError`, because the handler that was meant to return the default
calls the undefined `_get_default_seasonal_analysis`. -/
theorem C3_counterexample :
    perform_seasonal_decomposition c3OneMonth =
      .ok { peak_months := [5], low_months := [5], seasonal_strength := 0,
            recommended_months := [5], avoid_months := [5], multipliers := [(5, 1)] } ∧
    perform_seasonal_decomposition [] = .error attrErrSeasonal := by
  constructor
  · norm_num [perform_seasonal_decomposition, month_stats, month_groups, add_to_month_group,
      grand_mean, seasonal_indices, sorted_idx, pymax, pymin, List.insertionSort,
      List.orderedInsert, c3OneMonth]
  · rfl

/-- C3 (amended): grouping by calendar month, monthly averages, indices
relative to the grand mean, top-3/bottom-3/top-6/bottom-2 selections from
the stable descending ranking and strength = max − min all hold, for EVERY
input with at least one populated month and non-zero grand mean (months
with no observations are absent from the index map; a single observation
or a single populated month is handled).  But an input with no populated
month (or zero grand mean) raises `AttributeError` — the except handler
references the undefined `_get_default_seasonal_analysis`, so no static
default is ever returned — and an input with exactly one populated month is
decomposed normally rather than defaulted. -/
theorem C3_seasonal_decomposition (data : List Obs) :
    (month_groups data = [] → perform_seasonal_decomposition data = .error attrErrSeasonal) ∧
    (month_groups data ≠ [] → grand_mean data = 0 →
      perform_seasonal_decomposition data = .error attrErrSeasonal) ∧
    (month_groups data ≠ [] → grand_mean data ≠ 0 →
      perform_seasonal_decomposition data =
        .ok { peak_months := ((sorted_idx data).take 3).map (fun p => p.1),
              low_months :=
                ((sorted_idx data).drop ((sorted_idx data).length - 3)).map (fun p => p.1),
              seasonal_strength :=
                pymax ((seasonal_indices data).map (fun p => p.2)) -
                  pymin ((seasonal_indices data).map (fun p => p.2)),
              recommended_months := ((sorted_idx data).take 6).map (fun p => p.1),
              avoid_months :=
                ((sorted_idx data).drop ((sorted_idx data).length - 2)).map (fun p => p.1),
              multipliers := seasonal_indices data } ∧
      List.Sorted (descBy (fun p : Nat × ℚ => p.2)) (sorted_idx data) ∧
      (sorted_idx data).Perm (seasonal_indices data) ∧
      (seasonal_indices data).map (fun p => p.1) = (month_groups data).map (fun g => g.1)) := by
  refine ⟨?_, ?_, ?_⟩
  · intro h
    simp [perform_seasonal_decomposition, month_stats, h]
  · intro h1 h2
    have hne : (month_stats data).isEmpty = false := by
      simp [month_stats, List.isEmpty_eq_false, h1]
    simp [perform_seasonal_decomposition, hne, h2]
  · intro h1 h2
    have hne : (month_stats data).isEmpty = false := by
      simp [month_stats, List.isEmpty_eq_false, h1]
    refine ⟨?_, ?_, ?_, ?_⟩
    · simp [perform_seasonal_decomposition, hne, h2]
    · exact List.sorted_insertionSort _ _
    · exact List.perm_insertionSort _ _
    · simp [seasonal_indices, month_stats, List.map_map]

/-- The specification's own test series for C3: 24 monthly observations
over two years, December doubled and July halved against the 100
baseline. -/
def c3Series : List Obs :=
  [{ year := 2022, month := 1, value := 100 }, { year := 2022, month := 2, value := 100 },
   { year := 2022, month := 3, value := 100 }, { year := 2022, month := 4, value := 100 },
   { year := 2022, month := 5, value := 100 }, { year := 2022, month := 6, value := 100 },
   { year := 2022, month := 7, value := 50 }, { year := 2022, month := 8, value := 100 },
   { year := 2022, month := 9, value := 100 }, { year := 2022, month := 10, value := 100 },
   { year := 2022, month := 11, value := 100 }, { year := 2022, month := 12, value := 200 },
   { year := 2023, month := 1, value := 100 }, { year := 2023, month := 2, value := 100 },
   { year := 2023, month := 3, value := 100 }, { year := 2023, month := 4, value := 100 },
   { year := 2023, month := 5, value := 100 }, { year := 2023, month := 6, value := 100 },
   { year := 2023, month := 7, value := 50 }, { year := 2023, month := 8, value := 100 },
   { year := 2023, month := 9, value := 100 }, { year := 2023, month := 10, value := 100 },
   { year := 2023, month := 11, value := 100 }, { year := 2023, month := 12, value := 200 }]

/-- The seasonal indices of `c3Series`: baseline months score
`100 / (1250/12) = 24/25`, July `12/25`, December `48/25`. -/
def c3Idx : List (Nat × ℚ) :=
  [(1, 24/25), (2, 24/25), (3, 24/25), (4, 24/25), (5, 24/25), (6, 24/25), (7, 12/25),
   (8, 24/25), (9, 24/25), (10, 24/25), (11, 24/25), (12, 48/25)]

/-- `c3Idx` ranked descending (stable: the tied baseline months keep their
first-occurrence order). -/
def c3Sorted : List (Nat × ℚ) :=
  [(12, 48/25), (1, 24/25), (2, 24/25), (3, 24/25), (4, 24/25), (5, 24/25), (6, 24/25),
   (8, 24/25), (9, 24/25), (10, 24/25), (11, 24/25), (7, 12/25)]

/-- C3 witness: the amended theorem applied to the 24-month synthetic
series; its hypotheses (a populated month exists, grand mean non-zero) are
discharged by evaluation, and the computed ranking places December (12)
first and July (7) last, with strength `1.92 − 0.48 = 36/25`. -/
theorem C3_witness :
    month_groups c3Series ≠ [] ∧ grand_mean c3Series ≠ 0 ∧
    List.Sorted (descBy (fun p : Nat × ℚ => p.2)) (sorted_idx c3Series) ∧
    (sorted_idx c3Series).Perm (seasonal_indices c3Series) ∧
    (perform_seasonal_decomposition c3Series).map (fun d => (d.peak_months, d.low_months)) =
      .ok ([12, 1, 2], [10, 11, 7]) ∧
    (perform_seasonal_decomposition c3Series).map (fun d => d.seasonal_strength) =
      .ok (36 / 25) := by
  have h1 : month_groups c3Series ≠ [] := by decide
  have eidx : seasonal_indices c3Series = c3Idx := by
    norm_num [seasonal_indices, month_stats, month_groups, add_to_month_group, grand_mean,
      c3Series, c3Idx]
  have h2 : grand_mean c3Series ≠ 0 := by
    norm_num [grand_mean, month_stats, month_groups, add_to_month_group, c3Series]
  have esort : sorted_idx c3Series = c3Sorted := by
    rw [sorted_idx, eidx]
    norm_num [List.insertionSort, List.orderedInsert, descBy, c3Idx, c3Sorted]
  have h := (C3_seasonal_decomposition c3Series).2.2 h1 h2
  refine ⟨h1, h2, h.2.1, h.2.2.1, ?_, ?_⟩
  · rw [h.1]
    simp [esort, c3Sorted, Except.map]
  · rw [h.1]
    simp only [Except.map]
    rw [eidx]
    norm_num [pymax, pymin, c3Idx]

/-! ## Market intelligence: fetches, fallbacks, cache and composition

`backend/app/services/market_intelligence_service.py`.  The Gateway
boundary is placed at `_fetch_statcan_data` (lines 148-172), which per
source returns the processed observation list and `[]` on ANY failure
(network error, non-200 status, malformed payload — `_process_statcan_
response` also returns `[]` on a parse error).  A `GatewayEnv` therefore
records, per fetched series group, the observation list that the call
produces, with `[]` encoding both "fetch failed" and "no data". -/

/-- The outcome of each Gateway fetch the service performs. -/
structure GatewayEnv where
  retail_sales : List Obs
  consumer_confidence : List Obs
  employment_rate : List Obs
  inflation_rate : List Obs
  industry_retail : List Obs

/-- `_calculate_trend` (lines 339-355): slope between first and last of the
last 6 observations, divided by the window length. -/
def calculate_trend (data : List Obs) : String :=
  if data.length < 2 then "insufficient_data"
  else
    let values := (data.drop (data.length - 6)).map (fun p => p.value)
    if values.length < 2 then "insufficient_data"
    else
      let trend_slope := (values.getLast?.getD 0 - values.head?.getD 0) / (values.length : ℚ)
      if trend_slope > 0.01 then "increasing"
      else if trend_slope < -0.01 then "decreasing"
      else "stable"

/-- `_calculate_change_percentage` (lines 357-368). -/
def calculate_change_percentage (data : List Obs) : ℚ :=
  if data.length < 2 then 0
  else
    let current := (data.getLast?.getD obs0).value
    let previous := ((data.drop (data.length - 2)).head?.getD obs0).value
    if previous = 0 then 0 else (current - previous) / previous * 100

/-- A processed observation as the dict `_process_statcan_response` builds
(lines 180-186); the reference period is rendered back to a string,
`vector_id` and `status` sit beyond the modelled boundary. -/
def obsJ (p : Obs) : JVal :=
  .obj [(.str "date", .str (toString p.year ++ "-" ++ toString p.month)),
        (.str "value", .num p.value)]

/-- One indicator's entry as built at lines 129-136. -/
def indicator_entry (data : List Obs) (description impact : String) : JVal :=
  .obj [(.str "data", .arr (data.map obsJ)),
        (.str "description", .str description),
        (.str "impact_level", .str impact),
        (.str "trend", .str (calculate_trend data)),
        (.str "latest_value", (data.getLast?.map obsJ).getD .null),
        (.str "change_percentage", .num (calculate_change_percentage data))]

/-- `_get_economic_indicators` (lines 115-146): one Gateway fetch per entry
of `key_indicators` in its insertion order; an indicator whose fetch
produced no data is skipped (its inner `except` also only skips), so this
step never raises. -/
def get_economic_indicators (env : GatewayEnv) : JVal :=
  .obj ((if env.retail_sales.isEmpty then [] else
          [(JVal.str "retail_sales",
            indicator_entry env.retail_sales "Monthly retail sales data" "high")]) ++
        (if env.consumer_confidence.isEmpty then [] else
          [(JVal.str "consumer_confidence",
            indicator_entry env.consumer_confidence "Consumer confidence levels" "high")]) ++
        (if env.employment_rate.isEmpty then [] else
          [(JVal.str "employment_rate",
            indicator_entry env.employment_rate "Employment statistics" "medium")]) ++
        (if env.inflation_rate.isEmpty then [] else
          [(JVal.str "inflation_rate",
            indicator_entry env.inflation_rate "Consumer price index" "medium")]))

/-- `_get_industry_vectors` (lines 219-233). -/
def get_industry_vectors (industry : String) : List String :=
  if pyLower industry == "retail" then ["v41692457", "v41692458"]
  else if pyLower industry == "technology" then ["v41692460", "v41692461"]
  else if pyLower industry == "healthcare" then ["v41692462", "v41692463"]
  else if pyLower industry == "finance" then ["v41692464", "v41692465"]
  else if pyLower industry == "education" then ["v41692466", "v41692467"]
  else if pyLower industry == "automotive" then ["v41692468", "v41692469"]
  else if pyLower industry == "real_estate" then ["v41692470", "v41692471"]
  else if pyLower industry == "food_beverage" then ["v41692472", "v41692473"]
  else ["v41692457", "v41692458"]

/-- The vector groups `_get_economic_indicators` requests from the Gateway,
one per `key_indicators` entry (lines 43-64). -/
def econ_fetch_log : List (List String) :=
  [["v41692457", "v41692458", "v41692459"], ["v41690973"], ["v2057673", "v2057674"],
   ["v41690914"]]

/-- `_get_retail_trends` (lines 196-217) never returns normally, whence the
uninhabited success type:

* empty fetch result (line 204): `return self._get_fallback_retail_data(
  industry)` — the method is undefined, `AttributeError` escapes (the
  enclosing handler at line 215 calls the same undefined method again);
* non-empty fetch result: the result dict (lines 207-213) evaluates
  `self._calculate_seasonal_index(retail_data)`, also undefined —
  `AttributeError`, and the handler escalates identically. -/
def get_retail_trends (env : GatewayEnv) (_industry : String) (_lookback_months : Nat) :
    Except String Empty :=
  if env.industry_retail.isEmpty then .error "AttributeError: _get_fallback_retail_data"
  else .error "AttributeError: _calculate_seasonal_index"

/-- `_get_retail_trends` raises on every input. -/
theorem get_retail_trends_error (env : GatewayEnv) (industry : String) (lb : Nat) :
    get_retail_trends env industry lb =
      .error (if env.industry_retail.isEmpty then "AttributeError: _get_fallback_retail_data"
              else "AttributeError: _calculate_seasonal_index") := by
  unfold get_retail_trends
  split <;> simp_all

/-- `_get_fallback_seasonal_data` (lines 456-482): static industry
patterns, strength 0.3, avoid months = first two low months, all-1.0
multipliers. -/
def fallback_seasonal_data (industry : String) : JVal :=
  let pattern : List Nat × List Nat × List Nat :=
    if pyLower industry == "retail" then ([11, 12, 1], [2, 3, 8], [9, 10, 11])
    else if pyLower industry == "technology" then ([1, 9, 10], [6, 7, 8], [8, 9, 12])
    else ([3, 4, 9], [1, 7, 8], [2, 3, 8, 9])
  .obj [(.str "peak_months", .arr (pattern.1.map (fun m => JVal.num m))),
        (.str "low_months", .arr (pattern.2.1.map (fun m => JVal.num m))),
        (.str "recommended_launch_months", .arr (pattern.2.2.map (fun m => JVal.num m))),
        (.str "seasonal_strength", .num 0.3),
        (.str "avoid_months", .arr ((pattern.2.1.take 2).map (fun m => JVal.num m))),
        (.str "seasonal_multipliers",
          .obj ((List.range 12).map (fun i => (JVal.num (i + 1 : ℕ), JVal.num 1))))]

/-- `_analyze_seasonal_patterns` (lines 235-258): its call to
`_get_retail_trends` always raises (see `get_retail_trends_error`), the
handler returns the static industry fallback. -/
def analyze_seasonal_patterns (env : GatewayEnv) (industry : String) (lookback_months : Nat) :
    JVal :=
  match get_retail_trends env industry (min lookback_months 36) with
  | .error _ => fallback_seasonal_data industry
  | .ok e => e.elim

/-- `_get_fallback_consumer_data` (lines 484-491). -/
def fallback_consumer_data (_industry : String) : JVal :=
  .obj [(.str "digital_adoption", .obj [(.str "rate", .num 0.78), (.str "growth", .num 0.12)]),
        (.str "spending_patterns", .obj [(.str "online_preference", .num 0.65)]),
        (.str "demographic_preferences", .obj [(.str "primary_age_group", .str "25-44")]),
        (.str "platform_usage", .obj [(.str "mobile", .num 0.68), (.str "desktop", .num 0.32)])]

/-- `_get_consumer_behavior_data` (lines 303-319): the try body calls
`_fetch_canada_open_data_insights`, defined nowhere in the repository, so
`AttributeError` is raised at once and the handler returns the static
consumer fallback — on every input. -/
def get_consumer_behavior_data (industry : String) (_geography : String) : JVal :=
  fallback_consumer_data industry

/-- `_get_default_timing_insights` (lines 493-504). -/
def default_timing_insights : JVal :=
  .obj [(.str "optimal_launch_window",
          .obj [(.str "start_month", .num 3), (.str "end_month", .num 5),
                (.str "confidence", .num 0.7)]),
        (.str "avoid_periods", .arr [.num 7, .num 8]),
        (.str "economic_factors",
          .obj [(.str "favorable", .bool true), (.str "risk_level", .str "low")]),
        (.str "confidence_score", .num 0.6)]

/-- `_calculate_timing_insights` (lines 321-336): every helper the try body
calls (`_calculate_optimal_launch_window`, `_identify_avoid_periods`,
`_analyze_economic_timing_factors`, `_get_seasonal_timing_
recommendations`, `_calculate_timing_confidence`) is undefined, so the
handler always returns the static default insights. -/
def calculate_timing_insights (_intelligence_data : JVal) : JVal :=
  default_timing_insights

/-- `_get_fallback_intelligence_data` (lines 434-454), the full static
result with `data_quality = "fallback"`; the ISO `last_updated` stamp is
rendered from the integer clock. -/
def fallback_intelligence_data (industry : String) (now : ℤ) : JVal :=
  .obj [(.str "economic_indicators",
          .obj [(.str "retail_sales",
                  .obj [(.str "trend", .str "stable"), (.str "change_percentage", .num 2.1),
                        (.str "impact_level", .str "medium")])]),
        (.str "retail_trends",
          .obj [(.str "growth_rate", .num 1.8), (.str "trend_direction", .str "increasing"),
                (.str "seasonal_index", .num 1.0)]),
        (.str "seasonal_patterns", fallback_seasonal_data industry),
        (.str "consumer_behavior", fallback_consumer_data industry),
        (.str "timing_insights", default_timing_insights),
        (.str "data_quality", .str "fallback"),
        (.str "last_updated", .str (toString now))]

/-- A `MarketIntelligence` cache row
(`backend/app/models/campaign_optimization.py`, lines 93-130). -/
structure CacheEntry where
  industry : String
  geography : String
  data_source : String
  data_type : String
  market_data : JVal
  indicators : JVal
  trends : JVal
  seasonal_patterns : JVal
  data_period_start : ℤ
  data_period_end : ℤ
  expires_at : Option ℤ
  confidence_score : ℚ
  created_at : ℤ

/-- `MarketIntelligence.is_expired` (model lines 126-130):
`datetime.utcnow() > expires_at`, `False` when no expiry is set. -/
def is_expired (now : ℤ) (e : CacheEntry) : Bool :=
  match e.expires_at with
  | none => false
  | some t => decide (t < now)

/-- The filter of the cache query (lines 388-394): matching industry and
geography AND `created_at > now − 24h`. -/
def cache_probe (now : ℤ) (industry geography : String) (e : CacheEntry) : Bool :=
  e.industry == industry && e.geography == geography && decide (now - 24 < e.created_at)

/-- `_get_cached_intelligence` (lines 385-408).  On a hit the service does
NOT return the cached payload itself: it builds a new four-key dict from
the row's `indicators`/`trends`/`seasonal_patterns` columns and nests the
full payload under `"market_data"` (lines 396-402). -/
def get_cached_intelligence (now : ℤ) (db : List CacheEntry) (industry geography : String) :
    Option JVal :=
  match db.find? (cache_probe now industry geography) with
  | some e =>
      if is_expired now e then none
      else some (.obj [(.str "economic_indicators", e.indicators),
                       (.str "retail_trends", e.trends),
                       (.str "seasonal_patterns", e.seasonal_patterns),
                       (.str "market_data", e.market_data)])
  | none => none

/-- `_cache_intelligence_data` (lines 410-432): the row the method would
insert — `expires_at = now + 24h`, `confidence_score = 0.85`. -/
def cache_intelligence_data (now : ℤ) (industry geography : String) (data : JVal) : CacheEntry :=
  { industry := industry, geography := geography, data_source := "multiple",
    data_type := "comprehensive", market_data := data,
    indicators := (data.get "economic_indicators").getD (.obj []),
    trends := (data.get "retail_trends").getD (.obj []),
    seasonal_patterns := (data.get "seasonal_patterns").getD (.obj []),
    data_period_start := now - 8760, data_period_end := now,
    expires_at := some (now + 24), confidence_score := 0.85, created_at := now }

/-- One `get_market_intelligence` call's observable outcome: the returned
payload, the Gateway requests issued, and the cache rows written. -/
structure MarketRun where
  result : JVal
  fetch_calls : List (List String)
  cache_writes : List CacheEntry

/-- `get_market_intelligence` (lines 66-113).

* Cache hit (lines 77-80): the restructured four-key dict is returned, no
  Gateway request is made, nothing is written.
* Cache miss: `_get_economic_indicators` runs its four fetches (its dict is
  later discarded), then `_get_retail_trends` raises `AttributeError`
  unconditionally (see `get_retail_trends_error`), control reaches the
  catch-all at lines 111-113 and the full static fallback is returned — the
  seasonal/consumer/timing steps and the cache write at line 106 are never
  reached, so the service never writes a cache row. -/
def get_market_intelligence (env : GatewayEnv) (db : List CacheEntry) (now : ℤ)
    (industry geography : String) (lookback_months : Nat) : MarketRun :=
  match get_cached_intelligence now db industry geography with
  | some payload => { result := payload, fetch_calls := [], cache_writes := [] }
  | none =>
      match get_retail_trends env industry lookback_months with
      | .ok e => e.elim
      | .error _ =>
          { result := fallback_intelligence_data industry now,
            fetch_calls := econ_fetch_log ++ [get_industry_vectors industry],
            cache_writes := [] }

/-- C4 (amended): on every cache miss `get_market_intelligence` returns a
usable result without raising — but it is always the FULL static fallback
(marked `data_quality = "fallback"`), never a live composition with only a
failed sub-section substituted: the retail-trends step raises
`AttributeError` through its own undefined fallback helpers and the
top-level handler discards everything computed so far.  No cache row is
written, although the Gateway was invoked. -/
theorem C4_failure_containment (env : GatewayEnv) (db : List CacheEntry) (now : ℤ)
    (industry geography : String) (lookback_months : Nat)
    (hmiss : get_cached_intelligence now db industry geography = none) :
    (get_market_intelligence env db now industry geography lookback_months).result =
      fallback_intelligence_data industry now ∧
    (get_market_intelligence env db now industry geography lookback_months).result.get
        "data_quality" = some (.str "fallback") ∧
    (get_market_intelligence env db now industry geography lookback_months).cache_writes = [] ∧
    (get_market_intelligence env db now industry geography lookback_months).fetch_calls ≠ [] := by
  have hrun : get_market_intelligence env db now industry geography lookback_months =
      { result := fallback_intelligence_data industry now,
        fetch_calls := econ_fetch_log ++ [get_industry_vectors industry],
        cache_writes := [] } := by
    unfold get_market_intelligence
    rw [hmiss, get_retail_trends_error]
  refine ⟨by rw [hrun], ?_, by rw [hrun], by rw [hrun]; simp [econ_fetch_log]⟩
  rw [hrun]
  simp [fallback_intelligence_data, JVal.get, List.find?]

/-- Gateway outcomes for the C4 counterexample: the consumer-confidence
series fetch SUCCEEDS while the industry retail fetch fails. -/
def c4Env : GatewayEnv :=
  { retail_sales := [{ year := 2023, month := 1, value := 100 }],
    consumer_confidence := [{ year := 2023, month := 1, value := 50 }],
    employment_rate := [], inflation_rate := [],
    industry_retail := [] }

/-- C4 counterexample.  With only the retail fetch failing, the claim
demands the live result with the retail sub-section alone replaced by its
static fallback.  The code instead returns the FULL fallback: its economic
section is the static one-key `retail_sales` dict — the live economic
section, which carries the successfully fetched `consumer_confidence`
entry, has been discarded, so the substitution was not
"for the failed sub-section only". -/
theorem C4_counterexample :
    (get_market_intelligence c4Env [] 0 "technology" "Canada" 12).result =
      fallback_intelligence_data "technology" 0 ∧
    ((get_market_intelligence c4Env [] 0 "technology" "Canada" 12).result.get
        "economic_indicators").bind (fun j => j.get "consumer_confidence") = none ∧
    ((get_economic_indicators c4Env).get "consumer_confidence").isSome = true :=
  ⟨rfl, rfl, rfl⟩

/-- C4 witness: the amended theorem at a concrete miss (empty cache). -/
theorem C4_witness :
    (get_market_intelligence c4Env [] 0 "retail" "Canada" 12).result =
      fallback_intelligence_data "retail" 0 ∧
    (get_market_intelligence c4Env [] 0 "retail" "Canada" 12).result.get "data_quality" =
      some (.str "fallback") ∧
    (get_market_intelligence c4Env [] 0 "retail" "Canada" 12).cache_writes = [] := by
  have h := C4_failure_containment c4Env [] 0 "retail" "Canada" 12 rfl
  exact ⟨h.1, h.2.1, h.2.2.1⟩

/-- C8 (amended): a call that finds a usable cache row — matching industry
and geography, created within the last 24 hours (an extra query filter
beyond the claim's wording) and not expired — returns the RESTRUCTURED
four-key projection of the row (`indicators`/`trends`/`seasonal_patterns`
plus the payload nested under `market_data`), not the payload unchanged,
issuing no Gateway request and writing nothing.  The row constructor
`_cache_intelligence_data` does set `expires_at = now + 24h` and
`confidence_score = 0.85` — but no execution path of
`get_market_intelligence` reaches it (`cache_writes` is `[]` in every
case), because the live pipeline aborts in the retail step first. -/
theorem C8_cache_semantics (env : GatewayEnv) (db : List CacheEntry) (now : ℤ)
    (industry geography : String) (lookback_months : Nat) :
    (∀ p, get_cached_intelligence now db industry geography = some p →
       get_market_intelligence env db now industry geography lookback_months =
         { result := p, fetch_calls := [], cache_writes := [] } ∧
       ∃ e, db.find? (cache_probe now industry geography) = some e ∧
         is_expired now e = false ∧
         p = .obj [(.str "economic_indicators", e.indicators),
                   (.str "retail_trends", e.trends),
                   (.str "seasonal_patterns", e.seasonal_patterns),
                   (.str "market_data", e.market_data)]) ∧
    (get_market_intelligence env db now industry geography lookback_months).cache_writes = [] ∧
    (∀ data, (cache_intelligence_data now industry geography data).expires_at = some (now + 24) ∧
             (cache_intelligence_data now industry geography data).confidence_score = 0.85) := by
  refine ⟨?_, ?_, fun data => ⟨rfl, rfl⟩⟩
  · intro p hp
    constructor
    · unfold get_market_intelligence
      rw [hp]
    · unfold get_cached_intelligence at hp
      rcases hf : db.find? (cache_probe now industry geography) with _ | e
      · rw [hf] at hp
        cases hp
      · rw [hf] at hp
        dsimp only at hp
        rcases hexp : is_expired now e with _ | _
        · rw [hexp] at hp
          simp only [if_neg Bool.false_ne_true] at hp
          exact ⟨e, rfl, hexp, (Option.some.injEq _ _ ▸ hp).symm⟩
        · rw [hexp] at hp
          simp at hp
  · rcases hc : get_cached_intelligence now db industry geography with _ | p
    · unfold get_market_intelligence
      rw [hc, get_retail_trends_error]
    · unfold get_market_intelligence
      rw [hc]

/-- A cache row for the C8 counterexample whose stored composite payload is
`null`; fresh (created now, expires in 24h). -/
def c8Entry : CacheEntry :=
  { industry := "retail", geography := "Canada", data_source := "multiple",
    data_type := "comprehensive", market_data := .null, indicators := .obj [],
    trends := .obj [], seasonal_patterns := .obj [], data_period_start := -100,
    data_period_end := 0, expires_at := some 24, confidence_score := 0.85, created_at := 0 }

/-- An all-failing Gateway for the C8 counterexample (irrelevant on a
hit). -/
def c8Env : GatewayEnv :=
  { retail_sales := [], consumer_confidence := [], employment_rate := [],
    inflation_rate := [], industry_retail := [] }

/-- C8 counterexample.  On a fresh, non-expired row the call returns the
restructured four-key dict — NOT the row's payload unchanged: the payload
(`null` here) comes back nested under `"market_data"` instead. -/
theorem C8_counterexample :
    (get_market_intelligence c8Env [c8Entry] 1 "retail" "Canada" 12).result =
      .obj [(.str "economic_indicators", .obj []), (.str "retail_trends", .obj []),
            (.str "seasonal_patterns", .obj []), (.str "market_data", .null)] ∧
    c8Entry.market_data = .null ∧
    (get_market_intelligence c8Env [c8Entry] 1 "retail" "Canada" 12).result ≠
      c8Entry.market_data :=
  ⟨rfl, rfl, fun h => JVal.noConfusion h⟩

/-- C8 witness: the amended theorem applied at the concrete hit above. -/
theorem C8_witness :
    get_market_intelligence c8Env [c8Entry] 1 "retail" "Canada" 12 =
      { result := .obj [(.str "economic_indicators", .obj []), (.str "retail_trends", .obj []),
                        (.str "seasonal_patterns", .obj []), (.str "market_data", .null)],
        fetch_calls := [], cache_writes := [] } ∧
    (cache_intelligence_data 1 "retail" "Canada" .null).expires_at = some 25 ∧
    (cache_intelligence_data 1 "retail" "Canada" .null).confidence_score = 0.85 := by
  have h := C8_cache_semantics c8Env [c8Entry] 1 "retail" "Canada" 12
  exact ⟨(h.1 _ rfl).1, (h.2.2 .null).1, (h.2.2 .null).2⟩

/-- All five Gateway fetches succeed: the fullest possible "live fetch". -/
def c1LiveEnv : GatewayEnv :=
  { retail_sales := [{ year := 2023, month := 1, value := 100 }],
    consumer_confidence := [{ year := 2023, month := 1, value := 50 }],
    employment_rate := [{ year := 2023, month := 1, value := 60 }],
    inflation_rate := [{ year := 2023, month := 1, value := 3 }],
    industry_retail := [{ year := 2023, month := 1, value := 100 }] }

/-- C1 counterexample.  Market data "from a live fetch" never scores 0.9:
a cache-miss call that really invoked the Gateway (every fetch successful)
yields a payload marked `fallback`, whose data-quality component is 0.5;
and a cache-hit payload (the other live-derived shape, carrying no
`data_quality` key at all) scores the 0.7 default.  The 0.9 branch fires
only on a `"high"` marker that the market-intelligence service never
produces. -/
theorem C1_counterexample :
    (get_market_intelligence c1LiveEnv [] 0 "retail" "Canada" 12).fetch_calls ≠ [] ∧
    (get_market_intelligence c1LiveEnv [] 0 "retail" "Canada" 12).result.get "data_quality" =
      some (.str "fallback") ∧
    (calculate_confidence_scores
        (get_market_intelligence c1LiveEnv [] 0 "retail" "Canada" 12).result
        (.obj []) (.obj []) (.obj [])).data_quality = 0.5 ∧
    ((0.5 : ℚ) ≠ 0.9) ∧
    (calculate_confidence_scores
        (.obj [(.str "economic_indicators", .obj []), (.str "retail_trends", .obj []),
               (.str "seasonal_patterns", .obj []), (.str "market_data", .obj [])])
        (.obj []) (.obj []) (.obj [])).data_quality = 0.7 ∧
    ((0.7 : ℚ) ≠ 0.9) := by
  refine ⟨fun h => List.noConfusion h, rfl, ?_, by norm_num, ?_, by norm_num⟩
  · show round2 (data_quality_score _) = 0.5
    rw [show data_quality_score
        (get_market_intelligence c1LiveEnv [] 0 "retail" "Canada" 12).result = 0.5 from rfl]
    norm_num [round2, round_eq]
  · show round2 (data_quality_score _) = 0.7
    rw [show data_quality_score
        (JVal.obj [(.str "economic_indicators", .obj []), (.str "retail_trends", .obj []),
                   (.str "seasonal_patterns", .obj []), (.str "market_data", .obj [])]) =
      0.7 from rfl]
    norm_num [round2, round_eq]

/-! ## Orchestrator: platform scoring and ranking

`backend/app/services/campaign_optimization_service.py`, lines 27-47
(benchmark tables), 476-550 (scoring) and 291-350 (ranking). -/

/-- One ad format's static benchmarks (lines 27-47). -/
structure AdBenchmark where
  ctr : ℚ
  cpc : ℚ
  conversion_rate : ℚ
  deriving DecidableEq

/-- `self.platform_benchmarks` (lines 27-47), in dict insertion order. -/
def platform_benchmarks : List (String × List (String × AdBenchmark)) :=
  [("google_ads",
    [("search", { ctr := 0.035, cpc := 2.50, conversion_rate := 0.045 }),
     ("display", { ctr := 0.008, cpc := 0.85, conversion_rate := 0.012 }),
     ("video", { ctr := 0.025, cpc := 0.30, conversion_rate := 0.008 })]),
   ("facebook",
    [("feed", { ctr := 0.018, cpc := 1.20, conversion_rate := 0.025 }),
     ("stories", { ctr := 0.022, cpc := 0.95, conversion_rate := 0.018 }),
     ("video", { ctr := 0.031, cpc := 0.40, conversion_rate := 0.015 })]),
   ("instagram",
    [("feed", { ctr := 0.024, cpc := 1.40, conversion_rate := 0.028 }),
     ("stories", { ctr := 0.035, cpc := 1.10, conversion_rate := 0.022 }),
     ("reels", { ctr := 0.045, cpc := 0.80, conversion_rate := 0.020 })]),
   ("linkedin",
    [("sponsored", { ctr := 0.012, cpc := 4.50, conversion_rate := 0.065 }),
     ("message", { ctr := 0.008, cpc := 6.20, conversion_rate := 0.085 })])]

/-- The objective→platform lookup of lines 491-498, with the double `.get`
default 1.0 for unknown objectives or platforms. -/
def objective_multiplier (objective platform : String) : ℚ :=
  if objective == "awareness" then
    if platform == "google_ads" then 0.8 else if platform == "facebook" then 1.2
    else if platform == "instagram" then 1.3 else if platform == "linkedin" then 0.7 else 1.0
  else if objective == "traffic" then
    if platform == "google_ads" then 1.3 else if platform == "facebook" then 1.0
    else if platform == "instagram" then 0.9 else if platform == "linkedin" then 0.8 else 1.0
  else if objective == "leads" then
    if platform == "google_ads" then 1.2 else if platform == "facebook" then 1.1
    else if platform == "instagram" then 0.8 else if platform == "linkedin" then 1.4 else 1.0
  else if objective == "sales" then
    if platform == "google_ads" then 1.4 else if platform == "facebook" then 1.0
    else if platform == "instagram" then 0.9 else if platform == "linkedin" then 0.9 else 1.0
  else 1.0

/-- The per-platform strong age band and strength constant (lines 520-527),
with the lookup default `([18, 65], 0.7)`. -/
def platform_demographics (platform : String) : (ℚ × ℚ) × ℚ :=
  if platform == "google_ads" then ((25, 65), 0.9)
  else if platform == "facebook" then ((30, 60), 0.8)
  else if platform == "instagram" then ((18, 45), 0.9)
  else if platform == "linkedin" then ((25, 55), 0.85)
  else ((18, 65), 0.7)

/-- `_calculate_demographic_fit_score` (lines 517-538):
`demographics.get("age_range", [25, 45])` overlap against the platform's
band, normalised by the larger range width (0.5 on a width of zero), then
scaled by the strength constant and 100. -/
def calculate_demographic_fit_score (platform : String) (target_age_range : Option (ℚ × ℚ)) :
    ℚ :=
  let pd := platform_demographics platform
  let target_age := target_age_range.getD (25, 45)
  let platform_age := pd.1
  let overlap := max 0 (min target_age.2 platform_age.2 - max target_age.1 platform_age.1)
  let max_range := max (target_age.2 - target_age.1) (platform_age.2 - platform_age.1)
  let overlap_score := if 0 < max_range then overlap / max_range else 0.5
  overlap_score * pd.2 * 100

/-- `_calculate_efficiency_score` (lines 540-550):
`mean(conversion_rate) / mean(cpc) × 1000`, scaled by 10 and capped at
100. -/
def calculate_efficiency_score (benchmarks : List (String × AdBenchmark)) : ℚ :=
  let avg_cpc := (benchmarks.map (fun b => b.2.cpc)).sum / (benchmarks.length : ℚ)
  let avg_conversion :=
    (benchmarks.map (fun b => b.2.conversion_rate)).sum / (benchmarks.length : ℚ)
  let efficiency := avg_conversion / avg_cpc * 1000
  min 100 (efficiency * 10)

/-- The score dict of lines 509-515 (the `benchmarks` echo field is
omitted). -/
structure PlatformScore where
  total_score : ℚ
  objective_score : ℚ
  demographic_score : ℚ
  efficiency_score : ℚ
  deriving DecidableEq

/-- `_calculate_platform_score` (lines 476-515): base 50 times the
objective multiplier, combined `0.4/0.3/0.3` with demographic fit and
efficiency.  The `consumer_behavior` and `responses` arguments are
accepted and unused, exactly as in the source body. -/
def calculate_platform_score (platform : String) (benchmarks : List (String × AdBenchmark))
    (target_age_range : Option (ℚ × ℚ)) (objective : String)
    (_consumer_behavior : JVal) (_responses : JVal) : PlatformScore :=
  let base_score : ℚ := 50
  let objective_score := base_score * objective_multiplier objective platform
  let demographic_score := calculate_demographic_fit_score platform target_age_range
  let efficiency_score := calculate_efficiency_score benchmarks
  { total_score := objective_score * 0.4 + demographic_score * 0.3 + efficiency_score * 0.3,
    objective_score := objective_score,
    demographic_score := demographic_score,
    efficiency_score := efficiency_score }

/-- Lines 310-321: the score of every benchmark platform, in enumeration
order. -/
def platform_scores (target_age_range : Option (ℚ × ℚ)) (objective : String)
    (consumer_behavior : JVal) (responses : JVal) : List (String × PlatformScore) :=
  platform_benchmarks.map (fun pb =>
    (pb.1, calculate_platform_score pb.1 pb.2 target_age_range objective
      consumer_behavior responses))

/-- Lines 324-328: `sorted(platform_scores.items(), key=total_score,
reverse=True)` — stable, descending. -/
def ranked_platforms (target_age_range : Option (ℚ × ℚ)) (objective : String)
    (consumer_behavior : JVal) (responses : JVal) : List (String × PlatformScore) :=
  List.insertionSort (descBy (fun p : String × PlatformScore => p.2.total_score))
    (platform_scores target_age_range objective consumer_behavior responses)

/-- `_get_default_platform_recommendations` (lines 576-584). -/
def default_platform_recommendations : JVal :=
  .obj [(.str "primary_platform", .str "google_ads"),
        (.str "secondary_platforms", .arr [.str "facebook", .str "instagram"]),
        (.str "platform_scores", .obj []),
        (.str "channel_mix", .obj [(.str "search", .num 0.6), (.str "social", .num 0.4)]),
        (.str "budget_allocation",
          .obj [(.str "google_ads", .num 0.6), (.str "facebook", .num 0.25),
                (.str "instagram", .num 0.15)])]

/-- `_analyze_optimal_platforms` (lines 291-350).  The recommendation dict
literal at lines 331-338 computes `primary_platform`,
`secondary_platforms` and `platform_scores` from the ranking, but its next
entry calls `self._recommend_channel_mix` — undefined in the repository
(line 663 even says the helpers "would be implemented here") — so
`AttributeError` is raised, the handler at lines 348-350 swallows it, and
the STATIC default recommendations are returned on every input: the
computed ranking never reaches the caller. -/
def analyze_optimal_platforms (_campaign : Campaign) (_market_data : JVal)
    (_responses : JVal) : JVal :=
  default_platform_recommendations

/-- A campaign targeting ages 25-45 whose objective is `leads`, for C7. -/
def c7Campaign : Campaign :=
  { id := "c7", user_id := "u", org_id := "o", campaign_type := "search",
    primary_objective := "leads", total_budget := some 15000, daily_budget := none,
    target_age_range := some (25, 45), target_locations := [], target_interests := [] }

/-- C7 (code bug).  The scoring code of lines 476-550 does implement
`0.4×objective + 0.3×demographic + 0.3×efficiency` and the ranking of
lines 324-333 is the stable descending sort — on this input it ranks
`linkedin` (score 75) first, ahead of `google_ads` (67.5), `instagram`
(66) and `facebook` (64) — but `_analyze_optimal_platforms` returns the
static default (primary `google_ads`, empty score dict) on every campaign,
because the undefined `_recommend_channel_mix` aborts the recommendation
dict before it is returned.  The ranking really is sorted descending and a
permutation of the enumeration. -/
theorem C7_platform_ranking :
    analyze_optimal_platforms c7Campaign (.obj []) (.obj []) =
      default_platform_recommendations ∧
    default_platform_recommendations.get "primary_platform" = some (.str "google_ads") ∧
    (ranked_platforms (some (25, 45)) "leads" (.obj []) (.obj [])).map (fun p => p.1) =
      ["linkedin", "google_ads", "instagram", "facebook"] ∧
    List.Sorted (descBy (fun p : String × PlatformScore => p.2.total_score))
      (ranked_platforms (some (25, 45)) "leads" (.obj []) (.obj [])) ∧
    (ranked_platforms (some (25, 45)) "leads" (.obj []) (.obj [])).Perm
      (platform_scores (some (25, 45)) "leads" (.obj []) (.obj [])) ∧
    (platform_scores (some (25, 45)) "leads" (.obj []) (.obj [])).map (fun p => p.1) =
      ["google_ads", "facebook", "instagram", "linkedin"] := by
  have es : platform_scores (some (25, 45)) "leads" (.obj []) (.obj []) =
      [("google_ads", { total_score := 135/2, objective_score := 60,
                        demographic_score := 45, efficiency_score := 100 }),
       ("facebook", { total_score := 64, objective_score := 55,
                      demographic_score := 40, efficiency_score := 100 }),
       ("instagram", { total_score := 66, objective_score := 40,
                       demographic_score := 200/3, efficiency_score := 100 }),
       ("linkedin", { total_score := 75, objective_score := 70,
                      demographic_score := 170/3, efficiency_score := 100 })] := by
    have m1 : objective_multiplier "leads" "google_ads" = 1.2 := rfl
    have m2 : objective_multiplier "leads" "facebook" = 1.1 := rfl
    have m3 : objective_multiplier "leads" "instagram" = 0.8 := rfl
    have m4 : objective_multiplier "leads" "linkedin" = 1.4 := rfl
    have d1 : platform_demographics "google_ads" = ((25, 65), 0.9) := rfl
    have d2 : platform_demographics "facebook" = ((30, 60), 0.8) := rfl
    have d3 : platform_demographics "instagram" = ((18, 45), 0.9) := rfl
    have d4 : platform_demographics "linkedin" = ((25, 55), 0.85) := rfl
    norm_num [platform_scores, platform_benchmarks, calculate_platform_score,
      calculate_demographic_fit_score, calculate_efficiency_score,
      m1, m2, m3, m4, d1, d2, d3, d4]
  have er : ranked_platforms (some (25, 45)) "leads" (.obj []) (.obj []) =
      [("linkedin", { total_score := 75, objective_score := 70,
                      demographic_score := 170/3, efficiency_score := 100 }),
       ("google_ads", { total_score := 135/2, objective_score := 60,
                        demographic_score := 45, efficiency_score := 100 }),
       ("instagram", { total_score := 66, objective_score := 40,
                       demographic_score := 200/3, efficiency_score := 100 }),
       ("facebook", { total_score := 64, objective_score := 55,
                      demographic_score := 40, efficiency_score := 100 })] := by
    rw [ranked_platforms, es]
    norm_num [List.insertionSort, List.orderedInsert, descBy]
  refine ⟨rfl, rfl, ?_, List.sorted_insertionSort _ _, List.perm_insertionSort _ _, ?_⟩
  · rw [er]
    rfl
  · rw [es]
    rfl

/-! ## Dynamic questionnaire

`backend/app/services/questionnaire_service.py`.  A question is embedded
with its validation-relevant fields (`text`, `options[].label/description`
and `scale_labels` are display-only and never read by validation). -/

/-- One generated question (validation-relevant projection). -/
structure Question where
  key : String
  qtype : String
  category : String
  order_index : Nat
  required : Bool
  options : List String
  multiple_select : Bool
  scale_min : Option ℚ
  scale_max : Option ℚ
  deriving DecidableEq

/-- A single-select multiple-choice question. -/
def mcq (key category : String) (idx : Nat) (req : Bool) (opts : List String) : Question :=
  { key := key, qtype := "multiple_choice", category := category, order_index := idx,
    required := req, options := opts, multiple_select := false,
    scale_min := none, scale_max := none }

/-- A multi-select multiple-choice question. -/
def mcqMulti (key category : String) (idx : Nat) (req : Bool) (opts : List String) : Question :=
  { key := key, qtype := "multiple_choice", category := category, order_index := idx,
    required := req, options := opts, multiple_select := true,
    scale_min := none, scale_max := none }

/-- A scale question. -/
def scaleq (key category : String) (idx : Nat) (req : Bool) (lo hi : ℚ) : Question :=
  { key := key, qtype := "scale", category := category, order_index := idx,
    required := req, options := [], multiple_select := false,
    scale_min := some lo, scale_max := some hi }

/-- `_get_base_questions` (lines 59-166). -/
def base_questions : List Question :=
  [mcq "campaign_urgency" "business_context" 1 true
    ["immediate", "soon", "flexible", "strategic"],
   mcq "budget_flexibility" "business_context" 2 true
    ["fixed", "limited", "moderate", "high"],
   mcq "primary_success_metric" "business_context" 3 true
    ["brand_awareness", "website_traffic", "lead_generation", "sales_revenue",
     "customer_acquisition", "engagement"],
   mcq "target_market_maturity" "market_context" 4 true
    ["emerging", "growing", "mature", "declining"],
   scaleq "competitive_intensity" "market_context" 5 true 1 5,
   mcq "previous_campaign_performance" "campaign_history" 6 false
    ["excellent", "good", "mixed", "poor", "no_previous"],
   mcq "seasonal_business_patterns" "business_context" 7 true
    ["strong_seasonal", "moderate_seasonal", "minimal_seasonal", "counter_seasonal"]]

/-- `_get_industry_specific_questions` (lines 168-273): only the four known
industries contribute; `None` (and any unknown industry) contributes
nothing. -/
def industry_specific_questions (industry : Option String) : List Question :=
  match industry with
  | none => []
  | some ind =>
      if pyLower ind == "retail" then
        [mcqMulti "retail_peak_season" "industry_context" 20 true
          ["holiday_season", "back_to_school", "spring_summer", "winter", "year_round"],
         mcq "retail_customer_journey" "industry_context" 21 true
          ["impulse", "short", "medium", "long"]]
      else if pyLower ind == "technology" then
        [mcq "tech_product_complexity" "industry_context" 20 true
          ["simple", "moderate", "complex", "enterprise"],
         mcq "tech_target_segment" "industry_context" 21 true
          ["consumer", "smb", "enterprise", "developer"]]
      else if pyLower ind == "healthcare" then
        [scaleq "healthcare_regulation_impact" "industry_context" 20 true 1 5]
      else if pyLower ind == "finance" then
        [mcqMulti "finance_trust_factors" "industry_context" 20 true
          ["security", "reputation", "certifications", "testimonials", "transparency"]]
      else []

/-- `_get_campaign_type_questions` (lines 275-329). -/
def campaign_type_questions (campaign_type : String) : List Question :=
  if pyLower campaign_type == "search" then
    [mcq "search_intent_focus" "campaign_specifics" 30 true
      ["informational", "navigational", "commercial", "transactional"]]
  else if pyLower campaign_type == "display" then
    [mcq "display_targeting_approach" "campaign_specifics" 30 true
      ["contextual", "behavioral", "demographic", "remarketing"]]
  else if pyLower campaign_type == "video" then
    [mcq "video_content_style" "campaign_specifics" 30 false
      ["educational", "testimonial", "product_demo", "brand_story", "entertainment"]]
  else []

/-- `_get_conditional_questions` (lines 331-386): large budget
(truthy and > 10000), multi-location, non-empty interests. -/
def conditional_questions (c : Campaign) : List Question :=
  (match c.total_budget with
   | some b =>
       if 10000 < b then
         [mcq "large_budget_allocation" "budget_strategy" 40 true
           ["aggressive_start", "steady_pace", "test_and_scale", "seasonal_focus"]]
       else []
   | none => []) ++
  (if 1 < c.target_locations.length then
     [mcq "geographic_priorities" "targeting_strategy" 41 true
       ["equal_priority", "major_markets", "test_markets", "regional_rollout"]]
   else []) ++
  (if 0 < c.target_interests.length then
     [mcq "audience_expansion" "targeting_strategy" 42 true
       ["strict_targeting", "similar_interests", "lookalike_audiences", "broad_targeting"]]
   else [])

/-- The sort key of line 45: ascending lexicographic on
`(category, order_index)`; `a` may come before `b`.  (The claims about
validation do not depend on the order, so only decidability is needed to
run the sort.) -/
def questionOrder (a b : Question) : Prop :=
  pyStrLt a.category b.category = true ∨
    (a.category = b.category ∧ a.order_index ≤ b.order_index)

instance questionOrder.decidableRel : DecidableRel questionOrder := fun a b =>
  inferInstanceAs (Decidable (pyStrLt a.category b.category = true ∨
    (a.category = b.category ∧ a.order_index ≤ b.order_index)))

/-- `get_questionnaire_for_campaign` (lines 19-57), the `questions` field:
base, industry, campaign-type and conditional questions concatenated, then
stable-sorted by `(category, order_index)` (Python `list.sort` is
stable). -/
def get_questionnaire_questions (c : Campaign) (org : Organization) : List Question :=
  List.insertionSort questionOrder
    (base_questions ++ industry_specific_questions org.industry ++
      campaign_type_questions c.campaign_type ++ conditional_questions c)

/-- A submitted response value.  Python's `bool` is a subclass of `int`,
so a boolean passes the scale range check (see
`validate_response_format`). -/
inductive RVal where
  | str (s : String)
  | num (q : ℚ)
  | bool (b : Bool)
  | list (items : List RVal)

/-- Rendering of a response value into an error message (Python `str(v)`;
the rendering of nested lists is abbreviated, no claim reads it). -/
def rvalRepr : RVal → String
  | .str s => s
  | .num q => toString q
  | .bool b => toString b
  | .list _ => "list"

/-- `v in valid_values` of lines 447-451: only a string can match the
option set. -/
def rval_in_options (v : RVal) (opts : List String) : Bool :=
  match v with
  | .str s => opts.contains s
  | _ => false

/-- `_validate_response_format` (lines 438-468). -/
def validate_response_format (q : Question) (v : RVal) : Option String :=
  if q.qtype == "multiple_choice" then
    if q.multiple_select then
      match v with
      | .list items =>
          match items.find? (fun x => !(rval_in_options x q.options)) with
          | some bad =>
              some ("Invalid option '" ++ rvalRepr bad ++ "' for question '" ++ q.key ++ "'")
          | none => none
      | _ => some ("Question '" ++ q.key ++ "' expects a list of values")
    else
      if rval_in_options v q.options then none
      else some ("Invalid option '" ++ rvalRepr v ++ "' for question '" ++ q.key ++ "'")
  else if q.qtype == "scale" then
    let scale_min := q.scale_min.getD 1
    let scale_max := q.scale_max.getD 5
    let scale_msg := "Question '" ++ q.key ++ "' expects a number between " ++
      toString scale_min ++ " and " ++ toString scale_max
    match v with
    | .num x => if x < scale_min ∨ scale_max < x then some scale_msg else none
    | .bool b =>
        if (if b then (1 : ℚ) else 0) < scale_min ∨ scale_max < (if b then (1 : ℚ) else 0) then
          some scale_msg
        else none
    | _ => some scale_msg
  else if q.qtype == "text" then
    match v with
    | .str _ => none
    | _ => some ("Question '" ++ q.key ++ "' expects a text response")
  else if q.qtype == "boolean" then
    match v with
    | .bool _ => none
    | _ => some ("Question '" ++ q.key ++ "' expects a true/false response")
  else none

/-- Dict membership / lookup over the submitted responses, in insertion
order. -/
def resp_lookup (responses : List (String × RVal)) (k : String) : Option RVal :=
  (responses.find? (fun p => p.1 == k)).map (fun p => p.2)

/-- The first validation loop (lines 412-417): one error per required
question whose key is absent from the responses. -/
def required_errors (questions : List Question) (responses : List (String × RVal)) :
    List String :=
  (questions.filter (fun q => q.required && (resp_lookup responses q.key).isNone)).map
    (fun q => "Required question '" ++ q.key ++ "' is missing")

/-- The second validation loop (lines 420-426): for each submitted pair,
the format error of the FIRST question carrying its key, if any; a key
matching no question contributes nothing (the `if question:` guard). -/
def format_errors (questions : List Question) (responses : List (String × RVal)) :
    List String :=
  responses.filterMap (fun p =>
    ((questions.find? (fun q => q.key == p.1)).bind (fun q => validate_response_format q p.2)))

/-- The dict returned by `validate_responses` (lines 405-409, 428). -/
structure ValidationResult where
  valid : Bool
  errors : List String
  warnings : List String
  deriving DecidableEq

/-- `validate_responses` (lines 399-436): regenerates the questionnaire,
runs both loops, never writes any state.  `valid` starts `True` and is set
`False` exactly when an error is appended, so it equals the emptiness of
the error list. -/
def validate_responses (responses : List (String × RVal)) (c : Campaign)
    (org : Organization) : ValidationResult :=
  let questions := get_questionnaire_questions c org
  let errors := required_errors questions responses ++ format_errors questions responses
  { valid := errors.isEmpty, errors := errors, warnings := [] }

/-- C6: validation against the regenerated questionnaire (the call reads
state but never writes it — the embedding is a pure function of the
campaign, organization and responses).  (1) A required question whose key
is absent makes the result invalid and contributes an error naming the
key.  (2) A submitted value failing its question's format check (scale out
of `[scale_min, scale_max]`, multiple-choice value outside the option set,
wrong primitive type) makes the result invalid and contributes the
corresponding error.  (3) When every required key is present and every
submitted value passes its question's check, the result is
`valid = true` with no errors and no warnings. -/
theorem C6_validate_responses (c : Campaign) (org : Organization)
    (responses : List (String × RVal)) :
    (∀ q ∈ get_questionnaire_questions c org,
        q.required = true → resp_lookup responses q.key = none →
        (validate_responses responses c org).valid = false ∧
        ("Required question '" ++ q.key ++ "' is missing") ∈
          (validate_responses responses c org).errors) ∧
    (∀ p ∈ responses, ∀ q,
        (get_questionnaire_questions c org).find? (fun q0 => q0.key == p.1) = some q →
        ∀ e, validate_response_format q p.2 = some e →
        (validate_responses responses c org).valid = false ∧
        e ∈ (validate_responses responses c org).errors) ∧
    ((get_questionnaire_questions c org).all
        (fun q => !q.required || (resp_lookup responses q.key).isSome) = true →
     responses.all (fun p =>
        ((get_questionnaire_questions c org).find? (fun q0 => q0.key == p.1)).elim true
          (fun q => (validate_response_format q p.2).isNone)) = true →
     validate_responses responses c org = { valid := true, errors := [], warnings := [] }) := by
  refine ⟨?_, ?_, ?_⟩
  · intro q hq hreq hnone
    have hmem : ("Required question '" ++ q.key ++ "' is missing") ∈
        required_errors (get_questionnaire_questions c org) responses :=
      List.mem_map.mpr ⟨q, List.mem_filter.mpr ⟨hq, by simp [hreq, hnone]⟩, rfl⟩
    have hmem2 : ("Required question '" ++ q.key ++ "' is missing") ∈
        (validate_responses responses c org).errors := by
      simp only [validate_responses]
      exact List.mem_append_left _ hmem
    refine ⟨?_, hmem2⟩
    simp only [validate_responses]
    exact List.isEmpty_eq_false.mpr (List.ne_nil_of_mem (List.mem_append_left _ hmem))
  · intro p hp q hfind e hval
    have hmem : e ∈ format_errors (get_questionnaire_questions c org) responses :=
      List.mem_filterMap.mpr ⟨p, hp, by rw [hfind]; simpa using hval⟩
    have hmem2 : e ∈ (validate_responses responses c org).errors := by
      simp only [validate_responses]
      exact List.mem_append_right _ hmem
    refine ⟨?_, hmem2⟩
    simp only [validate_responses]
    exact List.isEmpty_eq_false.mpr (List.ne_nil_of_mem (List.mem_append_right _ hmem))
  · intro h1 h2
    have e1 : required_errors (get_questionnaire_questions c org) responses = [] := by
      unfold required_errors
      have : (get_questionnaire_questions c org).filter
          (fun q => q.required && (resp_lookup responses q.key).isNone) = [] := by
        rw [List.filter_eq_nil_iff]
        intro q hq
        have hb := List.all_eq_true.mp h1 q hq
        rcases hr : q.required with _ | _
        · simp [hr]
        · rcases ho : resp_lookup responses q.key with _ | v
          · rw [hr, ho] at hb
            simp at hb
          · simp [hr, ho]
      rw [this]
      rfl
    have e2 : format_errors (get_questionnaire_questions c org) responses = [] := by
      unfold format_errors
      rw [List.filterMap_eq_nil_iff]
      intro p hp
      have hb := List.all_eq_true.mp h2 p hp
      rcases hf : (get_questionnaire_questions c org).find? (fun q0 => q0.key == p.1)
        with _ | q
      · rw [hf]
        rfl
      · rw [hf] at hb ⊢
        simp only [Option.elim] at hb
        show validate_response_format q p.2 = none
        exact Option.isNone_iff_eq_none.mp hb
    simp [validate_responses, e1, e2]

/-- The specification's end-to-end campaign for C6: budget 15000, two
locations, one interest, search type, retail organization — 13 generated
questions. -/
def c6Campaign : Campaign :=
  { id := "c6", user_id := "u", org_id := "o", campaign_type := "search",
    primary_objective := "leads", total_budget := some 15000, daily_budget := none,
    target_age_range := none, target_locations := ["A", "B"], target_interests := ["x"] }

/-- A retail organization for C6. -/
def c6Org : Organization := { id := "o", industry := some "retail" }

/-- A complete, well-typed response set for `c6Campaign`. -/
def c6GoodResponses : List (String × RVal) :=
  [("campaign_urgency", .str "flexible"),
   ("budget_flexibility", .str "moderate"),
   ("primary_success_metric", .str "lead_generation"),
   ("target_market_maturity", .str "growing"),
   ("competitive_intensity", .num 3),
   ("seasonal_business_patterns", .str "minimal_seasonal"),
   ("retail_peak_season", .list [.str "holiday_season", .str "winter"]),
   ("retail_customer_journey", .str "short"),
   ("search_intent_focus", .str "commercial"),
   ("large_budget_allocation", .str "test_and_scale"),
   ("geographic_priorities", .str "major_markets"),
   ("audience_expansion", .str "similar_interests")]

/-- C6 witness: the validation theorem at the specification's test vector —
an empty submission is invalid with an error naming `campaign_urgency`; a
scale response of 6 on the 1-5 `competitive_intensity` question yields the
range error; the complete well-typed set yields `valid=true, errors=[]`. -/
theorem C6_witness :
    (validate_responses [] c6Campaign c6Org).valid = false ∧
    ("Required question 'campaign_urgency' is missing") ∈
      (validate_responses [] c6Campaign c6Org).errors ∧
    (validate_responses [("competitive_intensity", RVal.num 6)] c6Campaign c6Org).valid
      = false ∧
    ("Question 'competitive_intensity' expects a number between 1 and 5") ∈
      (validate_responses [("competitive_intensity", RVal.num 6)] c6Campaign c6Org).errors ∧
    validate_responses c6GoodResponses c6Campaign c6Org =
      { valid := true, errors := [], warnings := [] } := by
  have hA := (C6_validate_responses c6Campaign c6Org []).1
    (mcq "campaign_urgency" "business_context" 1 true
      ["immediate", "soon", "flexible", "strategic"])
    (by decide) rfl rfl
  have hB := (C6_validate_responses c6Campaign c6Org
      [("competitive_intensity", RVal.num 6)]).2.1
    ("competitive_intensity", RVal.num 6) (List.Mem.head _)
    (scaleq "competitive_intensity" "market_context" 5 true 1 5) (by decide)
    ("Question 'competitive_intensity' expects a number between 1 and 5") (by decide)
  have hC := (C6_validate_responses c6Campaign c6Org c6GoodResponses).2.2
    (by decide) (by decide)
  exact ⟨hA.1, by simpa [mcq] using hA.2, hB.1, hB.2, hC⟩

/-- If every pair carrying key `k` passes the filter, filtering does not
change the first pair found for `k`. -/
theorem find?_filter_key (l : List (String × RVal)) (k : String)
    (pred : String × RVal → Bool) (h : ∀ p : String × RVal, p.1 = k → pred p = true) :
    (l.filter pred).find? (fun p => p.1 == k) = l.find? (fun p => p.1 == k) := by
  induction l with
  | nil => rfl
  | cons p l ih =>
      rcases hp : pred p with _ | _
      · have hk : (p.1 == k) = false := by
          rcases hq : p.1 == k with _ | _
          · rfl
          · have := h p (by simpa using hq)
            rw [hp] at this
            cases this
        simp [List.filter_cons, hp, List.find?_cons, hk, ih]
      · rcases hq : p.1 == k with _ | _
        · simp [List.filter_cons, hp, List.find?_cons, hq, ih]
        · simp [List.filter_cons, hp, List.find?_cons, hq]

/-- Entries rejected by the filter that map to `none` contribute nothing:
filtering them away leaves `filterMap` unchanged. -/
theorem filterMap_filter_none {α β : Type} (f : α → Option β) (pred : α → Bool)
    (l : List α) (h : ∀ a, pred a = false → f a = none) :
    (l.filter pred).filterMap f = l.filterMap f := by
  induction l with
  | nil => rfl
  | cons a l ih =>
      rcases hp : pred a with _ | _
      · simp [List.filter_cons, hp, List.filterMap_cons, h a hp, ih]
      · simp [List.filter_cons, hp, List.filterMap_cons, ih]

/-- C10: a response whose key matches no generated question is silently
ignored — removing every unknown-key pair from the submission leaves the
whole validation result (validity, errors and warnings) unchanged, so an
unknown key can produce no error, no warning, and cannot make the result
invalid. -/
theorem C10_unknown_keys_ignored (c : Campaign) (org : Organization)
    (responses : List (String × RVal)) :
    validate_responses responses c org =
      validate_responses (responses.filter (fun p =>
        ((get_questionnaire_questions c org).find? (fun q0 => q0.key == p.1)).isSome)) c
        org := by
  have hreq : required_errors (get_questionnaire_questions c org)
      (responses.filter (fun p =>
        ((get_questionnaire_questions c org).find? (fun q0 => q0.key == p.1)).isSome)) =
      required_errors (get_questionnaire_questions c org) responses := by
    unfold required_errors
    congr 1
    apply List.filter_congr
    intro q hq
    have : resp_lookup (responses.filter (fun p =>
        ((get_questionnaire_questions c org).find? (fun q0 => q0.key == p.1)).isSome))
        q.key = resp_lookup responses q.key := by
      unfold resp_lookup
      rw [find?_filter_key]
      intro p hp
      rw [hp]
      exact List.find?_isSome.mpr ⟨q, hq, by simp⟩
    rw [this]
  have hfmt : format_errors (get_questionnaire_questions c org)
      (responses.filter (fun p =>
        ((get_questionnaire_questions c org).find? (fun q0 => q0.key == p.1)).isSome)) =
      format_errors (get_questionnaire_questions c org) responses := by
    unfold format_errors
    apply filterMap_filter_none
    intro p hp
    have : (get_questionnaire_questions c org).find? (fun q0 => q0.key == p.1) = none := by
      rcases hf : (get_questionnaire_questions c org).find? (fun q0 => q0.key == p.1)
        with _ | q
      · exact hf
      · rw [hf] at hp
        cases hp
    rw [this]
    rfl
  simp only [validate_responses]
  rw [hreq, hfmt]

end Nexopeak
